import Mathlib

/-!
Verification of the stripe-rag-demo repository: a shallow embedding of its two
HTTP functions (document ingestion and embedding proxy) and of the content
acquisition / chunking library, together with theorems settling the behavioural
claims about them.

Conventions of the embedding:
* Python machine behaviour is modelled explicitly: `pySplit` is `str.split()`,
  `pySlice` is list slicing (including negative indices), `pyInt` is `int(...)`.
* The `while` loop of `chunk_text` is modelled with explicit fuel; a result of
  `none` at every fuel means the loop never terminates.
* External systems (HTTP origins, the HTML parser, the embedding model, the
  uuid5 hash) are modelled as explicit parameters: an origin is a function from
  URL and attempt number to an outcome, a fetched page is the document-order
  element stream the extractor walks, uuid5 is an arbitrary function of the
  seed string (Python's uuid.uuid5 with the URL namespace is a pure function).
* Python exceptions are values of an inductive `Exn`; the catch predicates
  encode the real class hierarchy, in particular that tenacity.RetryError and
  google.api_core.exceptions.RetryError are unrelated classes.
-/

namespace StripeRag

/-! String primitives are modelled structurally on the character list of the
string (`String.data`), mirroring what the CPython operations do character by
character; the library versions in Lean core use well-founded recursion on
byte positions, which a proof cannot compute with. -/

/-- Worker for str.split(): walk the characters accumulating the current word
(reversed); whitespace ends a word, empty words are never produced. -/
def pySplitGo : List Char → List Char → List String
  | [], acc => if acc.isEmpty then [] else [String.mk acc.reverse]
  | c :: rest, acc =>
    if c.isWhitespace then
      if acc.isEmpty then pySplitGo rest []
      else String.mk acc.reverse :: pySplitGo rest []
    else pySplitGo rest (c :: acc)

/-- Python str.split() with no argument: split on runs of whitespace and drop
empty pieces. -/
def pySplit (s : String) : List String :=
  pySplitGo s.data []

/-- Python sep.join(items). -/
def pyJoin (sep : String) : List String → String
  | [] => ""
  | [x] => x
  | x :: y :: rest => x ++ sep ++ pyJoin sep (y :: rest)

/-- Python str.strip(): drop leading and trailing whitespace. -/
def pyStrip (s : String) : String :=
  String.mk (((s.data.dropWhile Char.isWhitespace).reverse.dropWhile
    Char.isWhitespace).reverse)

/-- Python str.lower() (ASCII range, which covers every header name involved). -/
def pyLower (s : String) : String :=
  String.mk (s.data.map Char.toLower)

/-- Python string slicing s[:n]: the first n characters. -/
def pyTake (s : String) (n : Nat) : String :=
  String.mk (s.data.take n)

/-- Worker for str.split(sep) with a one-character separator: empty pieces are
kept (Python keeps them for an explicit separator). -/
def pySplitSepGo (sep : Char) : List Char → List Char → List String
  | [], acc => [String.mk acc.reverse]
  | c :: rest, acc =>
    if c = sep then String.mk acc.reverse :: pySplitSepGo sep rest []
    else pySplitSepGo sep rest (c :: acc)

/-- Python str.split(sep) for a one-character separator. -/
def pySplitSep (sep : Char) (s : String) : List String :=
  pySplitSepGo sep s.data []

/-- normalize_whitespace from utils.py: " ".join(text.split()). -/
def normalizeWhitespace (text : String) : String :=
  pyJoin " " (pySplit text)

/-- Adjust one Python slice bound for a sequence of length n: negative indices
count from the end (clamped at 0), non-negative ones are clamped at n. -/
def pyAdjust (n : Nat) (i : Int) : Nat :=
  if i < 0 then ((n : Int) + i).toNat else min i.toNat n

/-- Python list slicing l[a:b] with the default step of 1. -/
def pySlice {α : Type} (l : List α) (a b : Int) : List α :=
  (l.drop (pyAdjust l.length a)).take (pyAdjust l.length b - pyAdjust l.length a)

/-- Loop of chunk_text from utils.py, with explicit fuel for the while loop.
The source keeps `start` as a Python int (it can go negative when
`chunk_size - overlap` is negative), so `start` is an `Int` here.  `none`
means the loop did not finish within `fuel` iterations. -/
def chunkLoop (words : List String) (chunkSize overlap : Int) :
    Nat → Int → Option (List String)
  | 0, start =>
    if start < (words.length : Int) then none else some []
  | fuel + 1, start =>
    if start < (words.length : Int) then
      match chunkLoop words chunkSize overlap fuel (start + (chunkSize - overlap)) with
      | none => none
      | some rest =>
        some (pyJoin " "
          (pySlice words start (min (start + chunkSize) (words.length : Int))) :: rest)
    else some []

/-- chunk_text from utils.py: split the text into words, return [] for an empty
word list, otherwise run the sliding window loop starting at word 0. -/
def chunkTextFuel (fuel : Nat) (text : String) (chunkSize overlap : Int) :
    Option (List String) :=
  let words := pySplit text
  if words = [] then some [] else chunkLoop words chunkSize overlap fuel 0

/-- Divergence of chunk_text on a given input: the loop terminates under no
fuel bound at all. -/
def chunkTextDiverges (text : String) (chunkSize overlap : Int) : Prop :=
  ∀ fuel, chunkTextFuel fuel text chunkSize overlap = none

/-! ## HTML extraction

BeautifulSoup is external; a fetched page is modelled by the document-order
element streams the extractor walks.  extract_text_from_html only reacts to
h1/h2/h3 headings and p paragraphs while walking descendants, so the stream
records those (any other node is `other`).  The anchor/link extraction of the
source is returned to no consumer in the pipeline and is not modelled. -/

/-- One node of the document-order walk. -/
inductive Elem where
  | h1 (text : String)
  | h2 (text : String)
  | h3 (text : String)
  | p (text : String)
  | other
deriving DecidableEq

/-- A parsed HTML page: the whole-document stream (searched for the title h1),
the stream under the first article element if one exists, and the stream under
the body element if one exists. -/
structure Html where
  docElems : List Elem
  articleElems : Option (List Elem)
  bodyElems : Option (List Elem)
deriving DecidableEq

/-- One record of the extractor's sections list: {"heading": ..., "text": ...}. -/
structure Section where
  heading : String
  text : String
deriving DecidableEq

/-- Return value of extract_text_from_html (title, paragraphs, sections). -/
structure Extracted where
  title : String
  paragraphs : List String
  sections : List Section
deriving DecidableEq

/-- soup.find("h1"): the first h1 element of the whole document. -/
def findFirstH1 : List Elem → Option String
  | [] => none
  | .h1 t :: _ => some t
  | .h2 _ :: rest => findFirstH1 rest
  | .h3 _ :: rest => findFirstH1 rest
  | .p _ :: rest => findFirstH1 rest
  | .other :: rest => findFirstH1 rest

/-- The descendant walk of extract_text_from_html: `cur` is the current_heading
variable; headings update it, paragraphs with non-empty normalized text append
to the paragraph list and to the aligned sections list. -/
def extractWalk (cur : String) : List Elem → List String × List Section
  | [] => ([], [])
  | .h1 t :: rest => extractWalk (normalizeWhitespace t) rest
  | .h2 t :: rest => extractWalk (normalizeWhitespace t) rest
  | .h3 t :: rest => extractWalk (normalizeWhitespace t) rest
  | .p t :: rest =>
    let nt := normalizeWhitespace t
    let r := extractWalk cur rest
    if nt = "" then r else (nt :: r.1, { heading := cur, text := nt } :: r.2)
  | .other :: rest => extractWalk cur rest

/-- article = soup.find("article") or soup.body. -/
def extractScope (page : Html) : Option (List Elem) :=
  page.articleElems.orElse (fun _ => page.bodyElems)

/-- extract_text_from_html from utils.py.  The baseUrl argument only feeds the
unconsumed link extraction and is kept for signature fidelity. -/
def extractTextFromHtml (page : Html) (baseUrl : String) : Extracted :=
  let title :=
    match findFirstH1 page.docElems with
    | some t => normalizeWhitespace t
    | none => "Untitled"
  match extractScope page with
  | none => { title := title, paragraphs := [], sections := [] }
  | some elems =>
    let walked := extractWalk title elems
    { title := title, paragraphs := walked.1, sections := walked.2 }

/-! ## Spec-side characterisation of section labels

The following three definitions are modelled from the spec's words, not from
the source: "the nearest preceding heading text (level 1-3) at the point the
chunk's underlying paragraph appears, or the page title if no heading precedes
it".  They exist to be compared with the extractor above. -/

/-- Positions (indices into the element stream) of the paragraphs that survive
extraction, i.e. have non-empty normalized text, in document order. -/
def paraPositions : List Elem → List Nat
  | [] => []
  | e :: rest =>
    let tail := (paraPositions rest).map (fun j => j + 1)
    match e with
    | .p t => if normalizeWhitespace t = "" then tail else 0 :: tail
    | _ => tail

/-- Normalized texts of the level 1-3 headings strictly before stream
position j. -/
def headingTextsBefore : List Elem → Nat → List String
  | _, 0 => []
  | [], _ => []
  | .h1 t :: rest, j + 1 => normalizeWhitespace t :: headingTextsBefore rest j
  | .h2 t :: rest, j + 1 => normalizeWhitespace t :: headingTextsBefore rest j
  | .h3 t :: rest, j + 1 => normalizeWhitespace t :: headingTextsBefore rest j
  | .p _ :: rest, j + 1 => headingTextsBefore rest j
  | .other :: rest, j + 1 => headingTextsBefore rest j

/-- Spec reading of the section label for the i-th extracted paragraph: the
nearest heading preceding that paragraph in the stream, or the title when no
heading precedes it. -/
def specNearestPrecedingHeading (title : String) (elems : List Elem) (i : Nat) :
    String :=
  match (paraPositions elems).get? i with
  | none => title
  | some j => (headingTextsBefore elems j).getLast?.getD title

/-! ## Python exceptions

The catch clauses of main.py test exception classes.  The relevant hierarchy:
requests.exceptions.HTTPError <: requests.exceptions.RequestException <:
Exception; tenacity.RetryError <: Exception; google.api_core.exceptions.RetryError
<: GoogleAPIError <: Exception.  tenacity.RetryError and
google.api_core.exceptions.RetryError are unrelated classes: main.py imports
RetryError from google.api_core.exceptions, so its `except RetryError` clauses
never match the tenacity.RetryError raised by fetch_url's retry decorator. -/

/-- Exception values crossing the modelled boundaries.  An HTTPError carries
response.status_code, or none when the error has no attached response. -/
inductive Exn where
  | httpError (status : Option Nat)
  | connectionError
  | tenacityRetryError (lastExn : Exn)
  | googleRetryError
  | runtimeError (msg : String)
  | valueError
  | keyError (name : String)
  | attributeError
deriving DecidableEq

/-- isinstance(e, google.api_core.exceptions.RetryError): false for
tenacity.RetryError, which is a different class. -/
def Exn.isGoogleRetryError : Exn → Bool
  | .googleRetryError => true
  | _ => false

/-- isinstance(e, requests.exceptions.HTTPError). -/
def Exn.isHTTPError : Exn → Bool
  | .httpError _ => true
  | _ => false

/-- isinstance(e, requests.exceptions.RequestException): HTTPError is a
subclass. -/
def Exn.isRequestException : Exn → Bool
  | .httpError _ => true
  | .connectionError => true
  | _ => false

/-- getattr(exc, "last_attempt", None): tenacity.RetryError carries the final
attempt (whose .exception() is the underlying error); the attribute is absent
on every other exception, in particular on google.api_core RetryError. -/
def Exn.lastAttemptExn : Exn → Option Exn
  | .tenacityRetryError e => some e
  | _ => none

/-- _unwrap_retry_http_error from main.py: the wrapped HTTPError of a caught
RetryError, if any. -/
def unwrapRetryHttpError (e : Exn) : Option Exn :=
  match e.lastAttemptExn with
  | none => none
  | some root => if root.isHTTPError then some root else none

/-- str(exc).  CPython's exact rendering of several of these depends on runtime
context (request URLs, future objects); representative strings are used and no
theorem in this file depends on their exact content, only on which body shape
they end up in. -/
def exnStr : Exn → String
  | .httpError (some s) => toString s ++ " Error for url"
  | .httpError none => "HTTP Error"
  | .connectionError => "Connection aborted"
  | .tenacityRetryError _ => "RetryError[<Future raised an exception>]"
  | .googleRetryError => "Retry deadline exceeded"
  | .runtimeError m => m
  | .valueError => "invalid literal for int with base 10"
  | .keyError n => n
  | .attributeError => "object has no attribute get"

/-! ## Fetching with retry -/

/-- Behaviour of one HTTP GET against a URL: a response (status plus the parsed
page) or a connection-level failure raised by requests.get itself. -/
inductive AttemptOutcome where
  | resp (status : Nat) (page : Html)
  | raiseConn

/-- The external origins: what each URL returns on each attempt (0-based). -/
def World : Type := String → Nat → AttemptOutcome

/-- One body execution of fetch_url from utils.py: 404 returns None with no
retry; raise_for_status raises HTTPError for 4xx/5xx; otherwise the text (here:
the parsed page) is returned. -/
def fetchOnce (world : World) (url : String) (attempt : Nat) :
    Except Exn (Option Html) :=
  match world url attempt with
  | .raiseConn => .error .connectionError
  | .resp status page =>
    if status = 404 then .ok none
    else if 400 ≤ status ∧ status < 600 then .error (.httpError (some status))
    else .ok (some page)

/-- The tenacity retry wrapper: run attempts while budget remains; when the
last allowed attempt raises, raise tenacity.RetryError wrapping that error.
The exponential backoff only affects timing and is not modelled. -/
def fetchRetryGo (world : World) (url : String) :
    Nat → Nat → Except Exn (Option Html)
  | _, 0 => .error (.tenacityRetryError .connectionError)
  | attempt, remaining + 1 =>
    match fetchOnce world url attempt with
    | .ok v => .ok v
    | .error e =>
      match remaining with
      | 0 => .error (.tenacityRetryError e)
      | r + 1 => fetchRetryGo world url (attempt + 1) (r + 1)

/-- fetch_url from utils.py: @retry(stop=stop_after_attempt(5), ...), so 5
total attempts. -/
def fetchUrl (world : World) (url : String) : Except Exn (Option Html) :=
  fetchRetryGo world url 0 5

/-! ## Document assembly -/

/-- A Document Chunk as assembled by prepare_documents. -/
structure Doc where
  id : String
  title : String
  url : String
  content : String
  «section» : String
  chunk_index : Nat
deriving DecidableEq

/-- Result of running a piece of Python code: a value, a raised exception, or
divergence (the chunking loop never terminating). -/
inductive PyResult (α : Type) where
  | ok (val : α)
  | exn (e : Exn)
  | diverge
deriving DecidableEq

/-- The enumerate loop of prepare_documents: one Doc per chunk, with the
deterministic identifier uuid5(NAMESPACE_URL, f"{url}-{idx}-{chunk[:100]}")
and the section label sections[idx].heading when idx is in range, else the
title.  uuid5 is passed in as a function: Python's uuid.uuid5 with the fixed
URL namespace is a pure function of the seed string. -/
def buildDocs (uuid5 : String → String) (url : String) (parsed : Extracted) :
    Nat → List String → List Doc
  | _, [] => []
  | idx, chunk :: rest =>
    { id := uuid5 (url ++ "-" ++ toString idx ++ "-" ++ pyTake chunk 100)
    , title := parsed.title
    , url := url
    , content := chunk
    , «section» :=
        match parsed.sections.get? idx with
        | some s => s.heading
        | none => parsed.title
    , chunk_index := idx } :: buildDocs uuid5 url parsed (idx + 1) rest

/-- prepare_documents from utils.py: per URL, fetch (None means a 404 skip that
contributes no chunks and no error), extract, join paragraphs with single
spaces, chunk, and assemble Docs; collected across URLs in order. -/
def prepareDocuments (uuid5 : String → String) (world : World)
    (chunkSize overlap : Int) (fuel : Nat) : List String → PyResult (List Doc)
  | [] => .ok []
  | url :: rest =>
    match fetchUrl world url with
    | .error e => .exn e
    | .ok none => prepareDocuments uuid5 world chunkSize overlap fuel rest
    | .ok (some page) =>
      let parsed := extractTextFromHtml page url
      let fullText := pyJoin " " parsed.paragraphs
      match chunkTextFuel fuel fullText chunkSize overlap with
      | none => .diverge
      | some chunks =>
        match prepareDocuments uuid5 world chunkSize overlap fuel rest with
        | .ok docsRest => .ok (buildDocs uuid5 url parsed 0 chunks ++ docsRest)
        | r => r

/-! ## Ingestion service (rag_poc_function/main.py) -/

/-- A Skip Record {"url": ..., "status": ...}. -/
structure SkipRec where
  url : String
  status : String
deriving DecidableEq

/-- _skip_url from main.py (its warning log is not modelled). -/
def skipUrl (url status : String) : SkipRec :=
  { url := url, status := status }

/-- JSON response bodies the handler can produce, by shape. -/
inductive Body where
  | errorBody (msg : String)
  | retryErrorBody (details : String)
  | okBody (ingested : Nat) (skipped : List SkipRec)
  | skippedBody (ingested : Nat) (skipped : List SkipRec)
deriving DecidableEq

/-- An HTTP response of the ingestion handler plus the observable calls it made
to the vector-store upsert (one entry per upsert_documents invocation, holding
the argument list). -/
structure IngestResult where
  status : Nat
  body : Body
  upsertCalls : List (List Doc)
deriving DecidableEq

/-- The environment variables the ingestion handler reads. -/
structure IngestEnv where
  ingestToken : Option String
  stripeDocUrls : Option String
  chunkSizeStr : Option String
  chunkOverlapStr : Option String

/-- get_env from utils.py: os.getenv(name, default); raise RuntimeError when
required and the resolved value is absent or empty. -/
def getEnv (name : String) (lookup : Option String) (dflt : Option String)
    (required : Bool) : Except Exn (Option String) :=
  let value := match lookup with | some v => some v | none => dflt
  if required ∧ (value = none ∨ value = some "") then
    .error (.runtimeError ("Missing required environment variable: " ++ name))
  else .ok value

/-- Digit accumulation for int(): every character must be a decimal digit
(character code 48 is the digit 0). -/
def digitsAux : List Char → Nat → Option Nat
  | [], acc => some acc
  | c :: rest, acc =>
    if c.isDigit then digitsAux rest (acc * 10 + (c.toNat - 48)) else none

/-- Parse a non-empty all-digit run. -/
def digitsToNat : List Char → Option Nat
  | [] => none
  | cs => digitsAux cs 0

/-- The numeric core of int(s): an optional sign (codes 45 and 43 are the minus
and plus signs) followed by decimal digits; anything else raises ValueError.
(Python additionally accepts underscore digit separators; no claim involves
them.) -/
def pyIntParse (s : String) : Except Exn Int :=
  match s.data with
  | [] => .error .valueError
  | c :: rest =>
    if c = Char.ofNat 45 then
      match digitsToNat rest with
      | some n => .ok (-(n : Int))
      | none => .error .valueError
    else if c = Char.ofNat 43 then
      match digitsToNat rest with
      | some n => .ok (n : Int)
      | none => .error .valueError
    else
      match digitsToNat (c :: rest) with
      | some n => .ok (n : Int)
      | none => .error .valueError

/-- int(s): Python strips surrounding whitespace and raises ValueError when the
remainder is not an integer literal. -/
def pyInt (s : String) : Except Exn Int :=
  pyIntParse (pyStrip s)

/-- Python truthiness of an optional string: None and "" are falsy. -/
def pyTruthyOptStr : Option String → Bool
  | none => false
  | some s => decide (s ≠ "")

/-- request.headers.get(name): werkzeug header lookup is case-insensitive. -/
def headerGet (headers : List (String × String)) (name : String) :
    Option String :=
  (headers.find? (fun kv => pyLower kv.1 = pyLower name)).map (fun kv => kv.2)

/-- URL list parsing: split STRIPE_DOC_URLS on commas, strip whitespace, drop
empties. -/
def parseUrls (csv : String) : List String :=
  ((pySplitSep (Char.ofNat 44) csv).map pyStrip).filter (fun u => u ≠ "")

/-- The per-URL loop of ingest_stripe_docs with its three except clauses.  The
RetryError clause tests google.api_core's class (never raised here) and then
_unwrap_retry_http_error; the HTTPError clause absorbs a 404 status into a
skip record; the RequestException clause logs and re-raises; any other
exception propagates. -/
def ingestLoop (uuid5 : String → String) (world : World)
    (chunkSize overlap : Int) (fuel : Nat) :
    List String → List Doc → List SkipRec → PyResult (List Doc × List SkipRec)
  | [], docs, skips => .ok (docs, skips)
  | url :: rest, docs, skips =>
    match prepareDocuments uuid5 world chunkSize overlap fuel [url] with
    | .diverge => .diverge
    | .ok newDocs =>
      ingestLoop uuid5 world chunkSize overlap fuel rest (docs ++ newDocs) skips
    | .exn e =>
      if e.isGoogleRetryError then
        match unwrapRetryHttpError e with
        | some (.httpError (some 404)) =>
          ingestLoop uuid5 world chunkSize overlap fuel rest docs
            (skips ++ [skipUrl url "404"])
        | _ => .exn e
      else if e.isHTTPError then
        match e with
        | .httpError (some 404) =>
          ingestLoop uuid5 world chunkSize overlap fuel rest docs
            (skips ++ [skipUrl url "404"])
        | _ => .exn e
      else .exn e

/-- The body of the outer try of ingest_stripe_docs: auth check, env reads,
URL parsing, the per-URL loop, the all-skipped 207 response, otherwise
upsert_documents (recorded as a call; with an empty argument it performs no
store operation) and the 200 response. -/
def ingestCore (uuid5 : String → String) (env : IngestEnv) (world : World)
    (headers : List (String × String)) (fuel : Nat) : PyResult IngestResult :=
  match getEnv "INGEST_FUNCTION_TOKEN" env.ingestToken none false with
  | .error e => .exn e
  | .ok expected =>
    if pyTruthyOptStr expected ∧ headerGet headers "X-Ingest-Token" ≠ expected then
      .ok { status := 401, body := .errorBody "Unauthorized", upsertCalls := [] }
    else
      match getEnv "STRIPE_DOC_URLS" env.stripeDocUrls none true with
      | .error e => .exn e
      | .ok urlsCsvOpt =>
        match getEnv "CHUNK_SIZE" env.chunkSizeStr none true with
        | .error e => .exn e
        | .ok csOpt =>
          match pyInt (csOpt.getD "") with
          | .error e => .exn e
          | .ok chunkSize =>
            match getEnv "CHUNK_OVERLAP" env.chunkOverlapStr none true with
            | .error e => .exn e
            | .ok ovOpt =>
              match pyInt (ovOpt.getD "") with
              | .error e => .exn e
              | .ok overlap =>
                let urls := parseUrls (urlsCsvOpt.getD "")
                if urls = [] then
                  .ok { status := 400, body := .errorBody "No URLs provided"
                      , upsertCalls := [] }
                else
                  match ingestLoop uuid5 world chunkSize overlap fuel urls [] [] with
                  | .diverge => .diverge
                  | .exn e => .exn e
                  | .ok (docs, skips) =>
                    if docs = [] ∧ skips ≠ [] then
                      .ok { status := 207, body := .skippedBody 0 skips
                          , upsertCalls := [] }
                    else
                      .ok { status := 200, body := .okBody docs.length skips
                          , upsertCalls := [docs] }

/-- ingest_stripe_docs from main.py.  `none` models divergence of the chunking
loop; otherwise a response is always produced, because the outer handlers
catch everything: `except RetryError` (google.api_core's class) answers 500
with the two-key {"error": "RetryError", "details": str(exc)} body, and the
final `except Exception` answers 500 with {"error": str(exc)}. -/
def ingestStripeDocs (uuid5 : String → String) (env : IngestEnv) (world : World)
    (headers : List (String × String)) (fuel : Nat) : Option IngestResult :=
  match ingestCore uuid5 env world headers fuel with
  | .diverge => none
  | .ok r => some r
  | .exn e =>
    if e.isGoogleRetryError then
      some { status := 500, body := .retryErrorBody (exnStr e), upsertCalls := [] }
    else
      some { status := 500, body := .errorBody (exnStr e), upsertCalls := [] }

/-- _redact_headers from main.py: the value of any header whose lowercased name
is authorization or x-ingest-token becomes ***REDACTED***; everything else is
copied through. -/
def redactHeaders : List (String × String) → List (String × String)
  | [] => []
  | kv :: rest =>
    (if pyLower kv.1 = "authorization" ∨ pyLower kv.1 = "x-ingest-token"
     then (kv.1, "***REDACTED***") else kv) :: redactHeaders rest

/-! ## Embedding proxy (functions/embed-texts/main.py) -/

/-- JSON values, as returned by request.get_json(force=True). -/
inductive Json where
  | null
  | bool (b : Bool)
  | num (n : Int)
  | str (s : String)
  | arr (xs : List Json)
  | obj (fields : List (String × Json))

/-- Python truthiness of a JSON value. -/
def Json.truthy : Json → Bool
  | .null => false
  | .bool b => b
  | .num n => decide (n ≠ 0)
  | .str s => decide (s ≠ "")
  | .arr xs => !xs.isEmpty
  | .obj fs => !fs.isEmpty

/-- isinstance(v, list). -/
def Json.isList : Json → Bool
  | .arr _ => true
  | _ => false

/-- Whether the parsed body is a JSON object (a Python dict). -/
def Json.isObj : Json → Bool
  | .obj _ => true
  | _ => false

/-- Key lookup in a JSON object's field list (parsed JSON objects carry
effectively unique keys). -/
def lookupField : List (String × Json) → String → Option Json
  | [], _ => none
  | (k, v) :: rest, key => if k = key then some v else lookupField rest key

/-- payload.get(key): dict lookup when the payload is an object; any other
parsed value (list, string, number, null, bool) has no .get method and raises
AttributeError. -/
def pyGet (payload : Json) (key : String) : Except Exn (Option Json) :=
  match payload with
  | .obj fields => .ok (lookupField fields key)
  | _ => .error .attributeError

/-- The environment variables the embedding proxy reads. -/
structure EmbedEnv where
  projectId : Option String
  location : Option String
  embedToken : Option String

/-- The module-level vertex_client_initialized flag. -/
structure EmbedState where
  initialized : Bool
deriving DecidableEq

/-- init_vertex_client from functions/embed-texts/main.py: a no-op once the
flag is set; otherwise os.environ["VERTEX_PROJECT_ID"] and
os.environ["VERTEX_LOCATION"] (KeyError when absent), then client and model
initialisation (external, assumed to succeed) and setting the flag. -/
def initVertexClient (env : EmbedEnv) (st : EmbedState) : Except Exn EmbedState :=
  if st.initialized then .ok st
  else
    match env.projectId with
    | none => .error (.keyError "VERTEX_PROJECT_ID")
    | some _ =>
      match env.location with
      | none => .error (.keyError "VERTEX_LOCATION")
      | some _ => .ok { initialized := true }

/-- Response bodies of the embedding proxy.  V is the (external) vector type
returned by the embedding model. -/
inductive EmbedBody (V : Type) where
  | errorMsg (msg : String)
  | embeddings (vectors : List V)

/-- Outcome of one embed request: an HTTP response, or an exception that the
handler does not catch (left to the framework). -/
inductive EmbedOutcome (V : Type) where
  | resp (status : Nat) (body : EmbedBody V)
  | unhandled (e : Exn)

/-- embed from functions/embed-texts/main.py.  init_vertex_client runs first,
before the token check and body validation.  parsedBody is the result of
request.get_json(force=True): none when parsing raised (the handler's
try/except answers 400).  The validation `if not texts or not
isinstance(texts, list)` passes exactly the non-empty lists, so the success
arm matches a non-empty array; getEmbeddings is the external
text-embedding-004 model, order-preserving by construction. -/
def embed {V : Type} (getEmbeddings : List Json → List V) (env : EmbedEnv)
    (st : EmbedState) (headers : List (String × String))
    (parsedBody : Option Json) : EmbedOutcome V × EmbedState :=
  match initVertexClient env st with
  | .error e => (.unhandled e, st)
  | .ok st1 =>
    if pyTruthyOptStr env.embedToken ∧
        headerGet headers "X-Internal-Token" ≠ env.embedToken then
      (.resp 401 (.errorMsg "Unauthorized"), st1)
    else
      match parsedBody with
      | none => (.resp 400 (.errorMsg "Invalid JSON payload"), st1)
      | some payload =>
        match pyGet payload "texts" with
        | .error e => (.unhandled e, st1)
        | .ok textsOpt =>
          match textsOpt with
          | some (.arr (x :: xs)) =>
            (.resp 200 (.embeddings (getEmbeddings (x :: xs))), st1)
          | _ => (.resp 400 (.errorMsg "Missing \x27texts\x27 array"), st1)
/-! ## Concrete fixtures used by counterexamples and witnesses -/

/-- A concrete 2000-word text. -/
def demoText2000 : String := pyJoin " " (List.replicate 2000 "a")

/-- An empty page (no h1, no article, no body). -/
def demoPageC1 : Html :=
  { docElems := [], articleElems := none, bodyElems := none }

/-- An origin on which every URL answers 404 on every attempt. -/
def demoWorldC1 : World := fun _ _ => .resp 404 demoPageC1

/-- Ingestion environment: no token, one configured URL, sizes 800/120. -/
def demoEnvC1 : IngestEnv :=
  { ingestToken := none, stripeDocUrls := some "http://a",
    chunkSizeStr := some "800", chunkOverlapStr := some "120" }

/-- A page whose article holds one h1 and one paragraph. -/
def demoPageC2 : Html :=
  { docElems := [.h1 "T", .p "hello"],
    articleElems := some [.h1 "T", .p "hello"], bodyElems := none }

/-- An origin where http://a 404s and every other URL serves demoPageC2. -/
def demoWorldC2 : World := fun u _ =>
  if u = "http://a" then .resp 404 demoPageC2 else .resp 200 demoPageC2

/-- Ingestion environment with the 404ing and the serving URL. -/
def demoEnvC2 : IngestEnv :=
  { ingestToken := none, stripeDocUrls := some "http://a,http://b",
    chunkSizeStr := some "800", chunkOverlapStr := some "120" }

/-- The single Document Chunk prepared from http://b under demoWorldC2 with the
identity function standing in for uuid5. -/
def demoDocC2 : Doc :=
  { id := "http://b-0-hello", title := "T", url := "http://b",
    content := "hello", «section» := "T", chunk_index := 0 }

/-- An origin on which every URL answers HTTP 500 on every attempt, so the
fetch retry policy is exhausted (5 attempts, each raising HTTPError 500). -/
def demoWorldC3 : World := fun _ _ => .resp 500 demoPageC1

/-- Ingestion environment for the retry-exhaustion run. -/
def demoEnvC3 : IngestEnv :=
  { ingestToken := none, stripeDocUrls := some "http://a",
    chunkSizeStr := some "800", chunkOverlapStr := some "120" }

/-- A page with a title heading, a sub-heading, and two paragraphs. -/
def demoPageC5 : Html :=
  { docElems := [.h1 "Top", .p "intro", .h2 "Sec", .p "body"],
    articleElems := some [.h1 "Top", .p "intro", .h2 "Sec", .p "body"],
    bodyElems := none }

/-- An origin serving demoPageC5 everywhere. -/
def demoWorldC5 : World := fun _ _ => .resp 200 demoPageC5

/-- The Document Chunks prepared from demoPageC5 at url "u" (single chunk;
its section label is the heading stored with paragraph 0, i.e. the title). -/
def demoDocsC5 : List Doc :=
  [{ id := "u-0-intro body", title := "Top", url := "u",
     content := "intro body", «section» := "Top", chunk_index := 0 }]

/-- An origin serving demoPageC2 everywhere (used for the identifier claim). -/
def demoWorldC7 : World := fun _ _ => .resp 200 demoPageC2

/-- The Document Chunks prepared from demoPageC2 at url "u". -/
def demoDocsC7 : List Doc :=
  [{ id := "u-0-hello", title := "T", url := "u",
     content := "hello", «section» := "T", chunk_index := 0 }]

/-- A stand-in embedding model returning one empty vector per input. -/
def demoGetEmb : List Json → List (List Int) :=
  fun xs => xs.map (fun _ => [])

/-- Embedding-proxy environment with both required variables set and no token. -/
def demoEmbEnvC8 : EmbedEnv :=
  { projectId := some "p", location := some "l", embedToken := none }

/-- Embedding-proxy environment with VERTEX_PROJECT_ID missing and a token
configured. -/
def demoEmbEnvC10 : EmbedEnv :=
  { projectId := none, location := some "l", embedToken := some "t" }

/-- A cold (uninitialised) embedding-proxy process state. -/
def demoEmbSt : EmbedState := { initialized := false }

/-! ## Library lemmas about the embedded definitions -/

lemma chunkLoop_stop (words : List String) (chunkSize overlap : Int)
    (fuel : Nat) (start : Int) (h : ¬ start < (words.length : Int)) :
    chunkLoop words chunkSize overlap fuel start = some [] := by
  cases fuel <;> simp [chunkLoop, h]

lemma chunkLoop_isSome (words : List String) (chunkSize overlap : Int) :
    ∀ (fuel : Nat) (start : Int),
      (words.length : Int) ≤ start + fuel * (chunkSize - overlap) →
      ∃ l, chunkLoop words chunkSize overlap fuel start = some l := by
  intro fuel
  induction fuel with
  | zero =>
    intro start h
    refine ⟨[], ?_⟩
    apply chunkLoop_stop
    simp only [Nat.cast_zero, zero_mul, add_zero] at h
    omega
  | succ f ih =>
    intro start h
    by_cases hlt : start < (words.length : Int)
    · have hexp : ((f + 1 : Nat) : Int) * (chunkSize - overlap)
          = (f : Int) * (chunkSize - overlap) + (chunkSize - overlap) := by
        push_cast
        ring
      rw [hexp] at h
      obtain ⟨l, hl⟩ := ih (start + (chunkSize - overlap)) (by linarith)
      refine ⟨pyJoin " "
        (pySlice words start (min (start + chunkSize) (words.length : Int))) :: l, ?_⟩
      simp [chunkLoop, hlt, hl]
    · exact ⟨[], chunkLoop_stop _ _ _ _ _ hlt⟩

lemma chunkLoop_none (words : List String) (chunkSize overlap : Int)
    (hstep : chunkSize - overlap ≤ 0) (hw : words ≠ []) :
    ∀ (fuel : Nat) (start : Int), start ≤ 0 →
      chunkLoop words chunkSize overlap fuel start = none := by
  have hlen : 0 < (words.length : Int) := by
    cases words with
    | nil => exact absurd rfl hw
    | cons a l => simp
  intro fuel
  induction fuel with
  | zero =>
    intro start hs
    have : start < (words.length : Int) := by omega
    simp [chunkLoop, this]
  | succ f ih =>
    intro start hs
    have hlt : start < (words.length : Int) := by omega
    have hrec := ih (start + (chunkSize - overlap)) (by omega)
    simp [chunkLoop, hlt, hrec]

lemma getLast?_getD_cons (x : String) (xs : List String) (d : String) :
    ((x :: xs).getLast?.getD d) = xs.getLast?.getD x := by
  cases xs with
  | nil => rfl
  | cons y ys =>
    have hs : ((y :: ys).getLast?).isSome := by
      rw [List.getLast?_isSome]
      simp
    obtain ⟨z, hz⟩ := Option.isSome_iff_exists.mp hs
    rw [List.getLast?_cons_cons, hz]
    rfl

/-- The heading the walk stores with the i-th paragraph is exactly the nearest
preceding heading (with the walk's start value as fallback). -/
lemma extractWalk_heading_spec :
    ∀ (elems : List Elem) (cur : String) (i : Nat) (s : Section),
      (extractWalk cur elems).2.get? i = some s →
      ∃ j, (paraPositions elems).get? i = some j ∧
        s.heading = (headingTextsBefore elems j).getLast?.getD cur := by
  intro elems
  induction elems with
  | nil => intro cur i s h; simp [extractWalk] at h
  | cons e rest ih =>
    intro cur i s h
    cases e with
    | h1 t =>
      simp only [extractWalk] at h
      obtain ⟨j, hj, hh⟩ := ih (normalizeWhitespace t) i s h
      refine ⟨j + 1, ?_, ?_⟩
      · simp only [paraPositions]
        rw [List.get?_map, hj]
        rfl
      · rw [hh]
        simp only [headingTextsBefore]
        rw [getLast?_getD_cons]
    | h2 t =>
      simp only [extractWalk] at h
      obtain ⟨j, hj, hh⟩ := ih (normalizeWhitespace t) i s h
      refine ⟨j + 1, ?_, ?_⟩
      · simp only [paraPositions]
        rw [List.get?_map, hj]
        rfl
      · rw [hh]
        simp only [headingTextsBefore]
        rw [getLast?_getD_cons]
    | h3 t =>
      simp only [extractWalk] at h
      obtain ⟨j, hj, hh⟩ := ih (normalizeWhitespace t) i s h
      refine ⟨j + 1, ?_, ?_⟩
      · simp only [paraPositions]
        rw [List.get?_map, hj]
        rfl
      · rw [hh]
        simp only [headingTextsBefore]
        rw [getLast?_getD_cons]
    | p t =>
      by_cases hnt : normalizeWhitespace t = ""
      · simp only [extractWalk] at h
        rw [if_pos hnt] at h
        obtain ⟨j, hj, hh⟩ := ih cur i s h
        refine ⟨j + 1, ?_, ?_⟩
        · simp only [paraPositions]
          rw [if_pos hnt, List.get?_map, hj]
          rfl
        · rw [hh]
          simp only [headingTextsBefore]
      · simp only [extractWalk] at h
        rw [if_neg hnt] at h
        cases i with
        | zero =>
          simp only [List.get?] at h
          injection h with h
          refine ⟨0, ?_, ?_⟩
          · simp only [paraPositions]
            rw [if_neg hnt]
            rfl
          · rw [← h]
            simp [headingTextsBefore]
        | succ i =>
          simp only [List.get?] at h
          obtain ⟨j, hj, hh⟩ := ih cur i s h
          refine ⟨j + 1, ?_, ?_⟩
          · simp only [paraPositions]
            rw [if_neg hnt]
            show ((paraPositions rest).map (fun j => j + 1)).get? i = some (j + 1)
            rw [List.get?_map, hj]
            rfl
          · rw [hh]
            simp only [headingTextsBefore]
    | other =>
      simp only [extractWalk] at h
      obtain ⟨j, hj, hh⟩ := ih cur i s h
      refine ⟨j + 1, ?_, ?_⟩
      · simp only [paraPositions]
        rw [List.get?_map, hj]
        rfl
      · rw [hh]
        simp only [headingTextsBefore]

/-! ## Shared unfolding lemmas -/

lemma chunkLoop_cons (words : List String) (chunkSize overlap : Int)
    (fuel : Nat) (start : Int) (h : start < (words.length : Int)) :
    chunkLoop words chunkSize overlap (fuel + 1) start =
      match chunkLoop words chunkSize overlap fuel (start + (chunkSize - overlap)) with
      | none => none
      | some rest => some (pyJoin " "
          (pySlice words start (min (start + chunkSize) (words.length : Int))) :: rest) := by
  simp [chunkLoop, h]

lemma pySlice_natCast (α : Type) (l : List α) (a b : Nat)
    (ha : a ≤ l.length) (hb : b ≤ l.length) :
    pySlice l (a : Int) (b : Int) = (l.drop a).take (b - a) := by
  unfold pySlice pyAdjust
  rw [if_neg (by omega), if_neg (by omega)]
  rw [Int.toNat_natCast, Int.toNat_natCast, min_eq_left ha, min_eq_left hb]

lemma pyJoin_replicate_cons (n : Nat) :
    pyJoin " " (List.replicate (n + 2) "a")
      = "a" ++ " " ++ pyJoin " " (List.replicate (n + 1) "a") := by
  rw [List.replicate_succ, List.replicate_succ]
  rfl

lemma pySplitGo_word_space (rest : List Char) :
    pySplitGo (Char.ofNat 97 :: Char.ofNat 32 :: rest) []
      = "a" :: pySplitGo rest [] := by
  have h1 : (Char.ofNat 97).isWhitespace = false := by decide
  have h2 : (Char.ofNat 32).isWhitespace = true := by decide
  simp [pySplitGo, h1, h2]

lemma pySplit_join_replicate :
    ∀ n, pySplit (pyJoin " " (List.replicate (n + 1) "a"))
      = List.replicate (n + 1) "a" := by
  intro n
  induction n with
  | zero => decide
  | succ m ih =>
    show pySplit (pyJoin " " (List.replicate (m + 2) "a")) = _
    rw [pyJoin_replicate_cons m]
    unfold pySplit
    rw [String.data_append, String.data_append]
    rw [show ("a" : String).data = [Char.ofNat 97] from rfl,
      show (" " : String).data = [Char.ofNat 32] from rfl]
    rw [show ([Char.ofNat 97] ++ [Char.ofNat 32]
        ++ (pyJoin " " (List.replicate (m + 1) "a")).data)
      = Char.ofNat 97 :: Char.ofNat 32
        :: (pyJoin " " (List.replicate (m + 1) "a")).data from rfl]
    rw [pySplitGo_word_space]
    rw [show pySplitGo (pyJoin " " (List.replicate (m + 1) "a")).data []
      = pySplit (pyJoin " " (List.replicate (m + 1) "a")) from rfl]
    rw [ih]
    rw [← List.replicate_succ]

/-! ## Claim C4: chunk_text and non-positive step -/

/-- C4, corrected.  The claim says chunk_text guards against overlap ≥
chunk_size by failing with a configuration error; the source has no guard at
all (the counterexample below).  What does hold: with overlap ≥ chunk_size and
a text containing at least one word the while loop never terminates, and with
chunk_size > overlap it terminates on every input text. -/
theorem chunk_text_step_dichotomy :
    (∀ (text : String) (chunkSize overlap : Int), chunkSize ≤ overlap →
        pySplit text ≠ [] → chunkTextDiverges text chunkSize overlap) ∧
    (∀ (text : String) (chunkSize overlap : Int), overlap < chunkSize →
        ∃ fuel l, chunkTextFuel fuel text chunkSize overlap = some l) := by
  constructor
  · intro text cs ov hle hw fuel
    simp only [chunkTextFuel]
    rw [if_neg hw]
    exact chunkLoop_none (pySplit text) cs ov (by omega) hw fuel 0 le_rfl
  · intro text cs ov hlt
    by_cases hw : pySplit text = []
    · refine ⟨0, [], ?_⟩
      simp only [chunkTextFuel]
      rw [if_pos hw]
    · have hstep : (1 : Int) ≤ cs - ov := by omega
      have hbound : ((pySplit text).length : Int) ≤
          0 + ((pySplit text).length : Nat) * (cs - ov) := by
        have h0 : (0 : Int) ≤ ((pySplit text).length : Int) := by positivity
        nlinarith
      obtain ⟨l, hl⟩ := chunkLoop_isSome (pySplit text) cs ov
        (pySplit text).length 0 hbound
      refine ⟨(pySplit text).length, l, ?_⟩
      simp only [chunkTextFuel]
      rw [if_neg hw]
      exact hl

/-- C4 counterexample to the claim as stated: at text "a" with chunk_size =
overlap = 1 the source raises no configuration error anywhere (its result type
has no error outcome) and the loop fails to terminate: it is still running at
every fuel bound. -/
theorem chunk_text_no_guard_diverges : chunkTextDiverges "a" 1 1 := by
  intro fuel
  have hw : pySplit "a" ≠ [] := by decide
  simp only [chunkTextFuel]
  rw [if_neg hw]
  exact chunkLoop_none (pySplit "a") 1 1 (by norm_num) hw fuel 0 le_rfl

/-- C4 witness: the dichotomy instantiated at the concrete inputs "a" with
(chunk_size, overlap) = (1, 1) and (1, 0). -/
theorem chunk_text_step_dichotomy_witness :
    ((1 : Int) ≤ 1 ∧ pySplit "a" ≠ [] ∧ chunkTextFuel 7 "a" 1 1 = none) ∧
    ((0 : Int) < 1 ∧ ∃ fuel l, chunkTextFuel fuel "a" 1 0 = some l) := by
  constructor
  · exact ⟨le_rfl, by decide, chunk_text_step_dichotomy.1 "a" 1 1 le_rfl (by decide) 7⟩
  · exact ⟨by norm_num, chunk_text_step_dichotomy.2 "a" 1 0 (by norm_num)⟩

/-! ## Claim C6: overlap invariant at 2000 words -/

/-- C6, confirmed.  For any text of exactly 2000 words, chunk_text with
chunk_size 800 and overlap 120 terminates (at any fuel from 3 on) with exactly
3 chunks; each chunk is the single-space join of a word window, and each
window after the first starts with exactly the last 120 words of its
predecessor. -/
theorem chunking_overlap_invariant_2000 (text : String)
    (h : (pySplit text).length = 2000) :
    ∃ w0 w1 w2,
      (∀ fuel, chunkTextFuel (fuel + 3) text 800 120 =
        some [pyJoin " " w0, pyJoin " " w1,
          pyJoin " " w2]) ∧
      w1.take 120 = w0.drop (w0.length - 120) ∧
      w2.take 120 = w1.drop (w1.length - 120) := by
  have hne : pySplit text ≠ [] := by
    intro hh
    rw [hh] at h
    simp at h
  have hlen : ((pySplit text).length : Int) = 2000 := by rw [h]; norm_num
  refine ⟨(pySplit text).take 800, ((pySplit text).drop 680).take 800,
    ((pySplit text).drop 1360).take 640, ?_, ?_, ?_⟩
  · intro fuel
    have e0 : pySlice (pySplit text) 0
        (min ((0 : Int) + 800) ((pySplit text).length : Int))
        = (pySplit text).take 800 := by
      rw [hlen]
      rw [show min ((0 : Int) + 800) (2000 : Int) = ((800 : Nat) : Int) by norm_num]
      rw [show (0 : Int) = ((0 : Nat) : Int) by norm_num]
      rw [pySlice_natCast _ _ 0 800 (by omega) (by omega)]
      simp
    have e1 : pySlice (pySplit text) 680
        (min ((680 : Int) + 800) ((pySplit text).length : Int))
        = ((pySplit text).drop 680).take 800 := by
      rw [hlen]
      rw [show min ((680 : Int) + 800) (2000 : Int) = ((1480 : Nat) : Int) by norm_num]
      rw [show (680 : Int) = ((680 : Nat) : Int) by norm_num]
      rw [pySlice_natCast _ _ 680 1480 (by omega) (by omega)]
    have e2 : pySlice (pySplit text) 1360
        (min ((1360 : Int) + 800) ((pySplit text).length : Int))
        = ((pySplit text).drop 1360).take 640 := by
      rw [hlen]
      rw [show min ((1360 : Int) + 800) (2000 : Int) = ((2000 : Nat) : Int) by norm_num]
      rw [show (1360 : Int) = ((1360 : Nat) : Int) by norm_num]
      rw [pySlice_natCast _ _ 1360 2000 (by omega) (by omega)]
    simp only [chunkTextFuel]
    rw [if_neg hne]
    rw [show fuel + 3 = (fuel + 2) + 1 from rfl]
    rw [chunkLoop_cons _ _ _ _ 0 (by rw [hlen]; norm_num)]
    rw [show (0 : Int) + (800 - 120) = 680 by norm_num]
    rw [chunkLoop_cons _ _ _ _ 680 (by rw [hlen]; norm_num)]
    rw [show (680 : Int) + (800 - 120) = 1360 by norm_num]
    rw [chunkLoop_cons _ _ _ _ 1360 (by rw [hlen]; norm_num)]
    rw [show (1360 : Int) + (800 - 120) = 2040 by norm_num]
    rw [chunkLoop_stop _ _ _ fuel 2040 (by rw [hlen]; norm_num)]
    rw [e0, e1, e2]
  · rw [List.take_take, List.length_take, h]
    rw [show min 800 2000 - 120 = 680 by norm_num]
    rw [List.drop_take]
    rw [show min 120 800 = 120 by norm_num]
  · rw [List.take_take, List.length_take, List.length_drop, h]
    rw [show min 800 (2000 - 680) - 120 = 680 by norm_num]
    rw [List.drop_take, List.drop_drop]
    rw [show min 120 640 = 120 by norm_num]

/-- C6 witness: the invariant instantiated at a concrete 2000-word text. -/
theorem chunking_overlap_invariant_2000_witness :
    (pySplit demoText2000).length = 2000 ∧
    ∃ w0 w1 w2,
      (∀ fuel, chunkTextFuel (fuel + 3) demoText2000 800 120 =
        some [pyJoin " " w0, pyJoin " " w1,
          pyJoin " " w2]) ∧
      w1.take 120 = w0.drop (w0.length - 120) ∧
      w2.take 120 = w1.drop (w1.length - 120) := by
  have h : (pySplit demoText2000).length = 2000 := by
    unfold demoText2000
    rw [show (2000 : Nat) = 1999 + 1 from rfl, pySplit_join_replicate 1999]
    rw [List.length_replicate]
  exact ⟨h, chunking_overlap_invariant_2000 demoText2000 h⟩

/-! ## Fetch and preparation lemmas -/

lemma fetchUrl_404 (world : World) (url : String) (page : Html)
    (h : world url 0 = .resp 404 page) :
    fetchUrl world url = .ok none := by
  show fetchRetryGo world url 0 (4 + 1) = .ok none
  simp [fetchRetryGo, fetchOnce, h]

lemma fetchUrl_success (world : World) (url : String) (page : Html)
    (status : Nat) (h : world url 0 = .resp status page) (h404 : status ≠ 404)
    (herr : ¬(400 ≤ status ∧ status < 600)) :
    fetchUrl world url = .ok (some page) := by
  show fetchRetryGo world url 0 (4 + 1) = .ok (some page)
  simp [fetchRetryGo, fetchOnce, h, h404, herr]

lemma prepareDocuments_404 (uuid5 : String → String) (world : World)
    (chunkSize overlap : Int) (fuel : Nat) (url : String) (page : Html)
    (h : world url 0 = .resp 404 page) :
    prepareDocuments uuid5 world chunkSize overlap fuel [url] = .ok [] := by
  simp [prepareDocuments, fetchUrl_404 world url page h]

/-- Inversion for a single-URL run that produced a value: either the URL was
skipped (404) and no chunks came out, or the fetch succeeded and the result is
exactly the assembled chunk list of the fetched page. -/
lemma prepareDocuments_single_inv (uuid5 : String → String) (world : World)
    (chunkSize overlap : Int) (fuel : Nat) (url : String) (docs : List Doc)
    (hrun : prepareDocuments uuid5 world chunkSize overlap fuel [url] = .ok docs) :
    docs = [] ∨ ∃ page chunks,
      fetchUrl world url = .ok (some page) ∧
      chunkTextFuel fuel (pyJoin " " (extractTextFromHtml page url).paragraphs)
        chunkSize overlap = some chunks ∧
      docs = buildDocs uuid5 url (extractTextFromHtml page url) 0 chunks := by
  cases hf : fetchUrl world url with
  | error e =>
    rw [prepareDocuments, hf] at hrun
    exact absurd hrun (by simp)
  | ok v =>
    cases v with
    | none =>
      rw [prepareDocuments, hf] at hrun
      simp only [prepareDocuments] at hrun
      left
      exact (PyResult.ok.injEq _ _).mp hrun.symm
    | some page =>
      right
      rw [prepareDocuments, hf] at hrun
      simp only at hrun
      cases hc : chunkTextFuel fuel
          (pyJoin " " (extractTextFromHtml page url).paragraphs)
          chunkSize overlap with
      | none =>
        rw [hc] at hrun
        exact absurd hrun (by simp)
      | some chunks =>
        rw [hc] at hrun
        simp only [prepareDocuments] at hrun
        refine ⟨page, chunks, rfl, hc, ?_⟩
        have := (PyResult.ok.injEq _ _).mp hrun
        rw [← this, List.append_nil]

lemma buildDocs_mem_section (uuid5 : String → String) (url : String)
    (parsed : Extracted) :
    ∀ (chunks : List String) (idx : Nat) (d : Doc),
      d ∈ buildDocs uuid5 url parsed idx chunks →
      d.«section» = (match parsed.sections.get? d.chunk_index with
        | some s => s.heading
        | none => parsed.title) := by
  intro chunks
  induction chunks with
  | nil => intro idx d hd; simp [buildDocs] at hd
  | cons c rest ih =>
    intro idx d hd
    rw [buildDocs] at hd
    rcases List.mem_cons.mp hd with h | h
    · subst h; rfl
    · exact ih (idx + 1) d h

lemma buildDocs_get? (uuid5 : String → String) (url : String)
    (parsed : Extracted) :
    ∀ (chunks : List String) (idx0 i : Nat) (d : Doc),
      (buildDocs uuid5 url parsed idx0 chunks).get? i = some d →
      d.id = uuid5 (url ++ "-" ++ toString (idx0 + i) ++ "-"
        ++ pyTake d.content 100) ∧ d.chunk_index = idx0 + i := by
  intro chunks
  induction chunks with
  | nil => intro idx0 i d hd; simp [buildDocs] at hd
  | cons c rest ih =>
    intro idx0 i d hd
    cases i with
    | zero =>
      rw [buildDocs] at hd
      simp only [List.get?] at hd
      injection hd with hd
      subst hd
      exact ⟨by rw [Nat.add_zero], by rw [Nat.add_zero]⟩
    | succ i =>
      rw [buildDocs] at hd
      simp only [List.get?] at hd
      obtain ⟨h1, h2⟩ := ih (idx0 + 1) i d hd
      refine ⟨?_, by omega⟩
      rw [h1, show idx0 + 1 + i = idx0 + (i + 1) from by omega]

/-! ## Ingestion loop lemmas -/

lemma ingestLoop_all404 (uuid5 : String → String) (world : World)
    (chunkSize overlap : Int) (fuel : Nat) :
    ∀ (urls : List String), (∀ u ∈ urls, ∃ p, world u 0 = .resp 404 p) →
      ∀ (docs : List Doc) (skips : List SkipRec),
        ingestLoop uuid5 world chunkSize overlap fuel urls docs skips
          = .ok (docs, skips) := by
  intro urls
  induction urls with
  | nil => intro _ docs skips; rfl
  | cons u rest ih =>
    intro h docs skips
    obtain ⟨p, hp⟩ := h u (by simp)
    rw [ingestLoop, prepareDocuments_404 uuid5 world chunkSize overlap fuel u p hp]
    show ingestLoop uuid5 world chunkSize overlap fuel rest (docs ++ []) skips
      = .ok (docs, skips)
    rw [List.append_nil]
    exact ih (fun v hv => h v (by simp [hv])) docs skips

/-- Every error the retry wrapper lets escape is a tenacity.RetryError
wrapping the last attempt's exception. -/
lemma fetchRetryGo_error_shape (world : World) (url : String) :
    ∀ (remaining attempt : Nat) (e : Exn),
      fetchRetryGo world url attempt remaining = .error e →
      ∃ e', e = .tenacityRetryError e' := by
  intro remaining
  induction remaining with
  | zero =>
    intro attempt e h
    rw [fetchRetryGo] at h
    exact ⟨.connectionError, ((Except.error.injEq _ _).mp h).symm⟩
  | succ r ih =>
    intro attempt e h
    rw [fetchRetryGo] at h
    cases hf : fetchOnce world url attempt with
    | ok v =>
      rw [hf] at h
      exact absurd h (by simp)
    | error e1 =>
      rw [hf] at h
      cases r with
      | zero =>
        exact ⟨e1, ((Except.error.injEq _ _).mp h).symm⟩
      | succ r' =>
        exact ih (attempt + 1) e h

/-- Every error fetch_url raises to its caller is a tenacity.RetryError. -/
lemma fetchUrl_error_shape (world : World) (url : String) (e : Exn)
    (h : fetchUrl world url = .error e) :
    ∃ e', e = .tenacityRetryError e' :=
  fetchRetryGo_error_shape world url 5 0 e h

/-- Every exception prepare_documents lets escape is a tenacity.RetryError:
the only raising operation it performs is fetch_url (a 404 is absorbed as a
None return before any raise). -/
lemma prepareDocuments_exn_shape (uuid5 : String → String) (world : World)
    (chunkSize overlap : Int) (fuel : Nat) :
    ∀ (urls : List String) (e : Exn),
      prepareDocuments uuid5 world chunkSize overlap fuel urls = .exn e →
      ∃ e', e = .tenacityRetryError e' := by
  intro urls
  induction urls with
  | nil =>
    intro e h
    simp [prepareDocuments] at h
  | cons url rest ih =>
    intro e h
    rw [prepareDocuments] at h
    cases hf : fetchUrl world url with
    | error e0 =>
      rw [hf] at h
      obtain ⟨e', he⟩ := fetchUrl_error_shape world url e0 hf
      have : e0 = e := (PyResult.exn.injEq _ _).mp h
      exact ⟨e', by rw [← this, he]⟩
    | ok v =>
      cases v with
      | none =>
        rw [hf] at h
        exact ih e h
      | some page =>
        rw [hf] at h
        simp only at h
        cases hc : chunkTextFuel fuel
            (pyJoin " " (extractTextFromHtml page url).paragraphs)
            chunkSize overlap with
        | none =>
          rw [hc] at h
          exact absurd h (by simp)
        | some chunks =>
          rw [hc] at h
          cases hr : prepareDocuments uuid5 world chunkSize overlap fuel rest with
          | ok docsRest =>
            rw [hr] at h
            exact absurd h (by simp)
          | diverge =>
            rw [hr] at h
            exact absurd h (by simp)
          | exn e2 =>
            rw [hr] at h
            obtain ⟨e', he⟩ := ih e2 hr
            have : e2 = e := (PyResult.exn.injEq _ _).mp h
            exact ⟨e', by rw [← this, he]⟩

/-- The skip-record branches of the per-URL loop are dead code: every
exception that reaches them is a tenacity.RetryError, which neither
`except RetryError` (google.api_core's class) nor `except HTTPError` matches,
so a completed loop always ends with exactly the skip list it started with. -/
lemma ingestLoop_skips_unchanged (uuid5 : String → String) (world : World)
    (chunkSize overlap : Int) (fuel : Nat) :
    ∀ (urls : List String) (docs : List Doc) (skips : List SkipRec)
      (result : List Doc × List SkipRec),
      ingestLoop uuid5 world chunkSize overlap fuel urls docs skips
        = .ok result →
      result.2 = skips := by
  intro urls
  induction urls with
  | nil =>
    intro docs skips result h
    rw [ingestLoop] at h
    rw [← (PyResult.ok.injEq _ _).mp h]
  | cons url rest ih =>
    intro docs skips result h
    rw [ingestLoop] at h
    cases hp : prepareDocuments uuid5 world chunkSize overlap fuel [url] with
    | ok newDocs =>
      rw [hp] at h
      exact ih (docs ++ newDocs) skips result h
    | diverge =>
      rw [hp] at h
      exact absurd h (by simp)
    | exn e =>
      rw [hp] at h
      obtain ⟨e', he⟩ := prepareDocuments_exn_shape uuid5 world chunkSize
        overlap fuel [url] e hp
      subst he
      simp only [Exn.isGoogleRetryError, Exn.isHTTPError,
        Bool.false_eq_true, if_false, ite_false] at h
      exact absurd h (by simp)

/-! ## Claim C1: the all-URLs-404 scenario -/

/-- C1 counterexample to the claim as stated: with one configured URL whose
every fetch attempt answers 404, the endpoint does NOT answer 207 with a
"skipped" body and a one-element skip list and it does NOT leave
upsert_documents uninvoked.  fetch_url turns the 404 into a None return, so
prepare_documents raises nothing, the except clauses of the loop never run, no
Skip Record is created, and the handler falls through to upsert_documents([])
and the 200 "ok" response. -/
theorem ingest_all404_not_207 :
    (ingestStripeDocs (fun s => s) demoEnvC1 demoWorldC1 [] 0).map
      IngestResult.status = some 200 ∧
    (ingestStripeDocs (fun s => s) demoEnvC1 demoWorldC1 [] 0).map
      IngestResult.body = some (.okBody 0 []) ∧
    (ingestStripeDocs (fun s => s) demoEnvC1 demoWorldC1 [] 0).map
      (fun r => r.upsertCalls.length) = some 1 := by
  refine ⟨?_, ?_, ?_⟩ <;> rfl

/-- C1, corrected.  For every invocation with no token configured, a
non-empty parsed URL list, parseable chunk sizes, and every configured URL
answering 404 at its first attempt, the endpoint responds 200 with body
{"status": "ok", "ingested": 0, "skipped": []} and upsert_documents is invoked
exactly once, with the empty document list (a store no-op). -/
theorem ingest_all404_returns_ok200_empty_skips
    (uuid5 : String → String) (world : World) (env : IngestEnv)
    (headers : List (String × String)) (fuel : Nat)
    (csv csStr ovStr : String) (cs ov : Int)
    (h1 : env.ingestToken = none)
    (h2 : env.stripeDocUrls = some csv)
    (h3 : env.chunkSizeStr = some csStr)
    (h4 : env.chunkOverlapStr = some ovStr)
    (hcs : pyInt csStr = .ok cs)
    (hov : pyInt ovStr = .ok ov)
    (hurls : parseUrls csv ≠ [])
    (h404 : ∀ u ∈ parseUrls csv, ∃ p, world u 0 = .resp 404 p) :
    ingestStripeDocs uuid5 env world headers fuel
      = some { status := 200, body := .okBody 0 [], upsertCalls := [[]] } := by
  have hcsv : csv ≠ "" := by
    intro he
    rw [he] at hurls
    exact hurls (by decide)
  have hcsne : csStr ≠ "" := by
    intro he
    rw [he, show pyInt "" = .error .valueError from rfl] at hcs
    exact Except.noConfusion hcs
  have hovne : ovStr ≠ "" := by
    intro he
    rw [he, show pyInt "" = .error .valueError from rfl] at hov
    exact Except.noConfusion hov
  have e1 : getEnv "INGEST_FUNCTION_TOKEN" none none false = .ok none := rfl
  have e2 : getEnv "STRIPE_DOC_URLS" (some csv) none true = .ok (some csv) := by
    simp [getEnv, hcsv]
  have e3 : getEnv "CHUNK_SIZE" (some csStr) none true = .ok (some csStr) := by
    simp [getEnv, hcsne]
  have e4 : getEnv "CHUNK_OVERLAP" (some ovStr) none true = .ok (some ovStr) := by
    simp [getEnv, hovne]
  have e5 : ingestLoop uuid5 world cs ov fuel (parseUrls csv) [] [] = .ok ([], []) :=
    ingestLoop_all404 uuid5 world cs ov fuel (parseUrls csv) h404 [] []
  unfold ingestStripeDocs ingestCore
  rw [h1, h2, h3, h4]
  simp only [e1, e2, e3, e4, e5, hcs, hov, Option.getD, pyTruthyOptStr,
    Bool.false_eq_true, false_and, if_false, ite_false, if_neg hurls]
  simp

/-- C1 witness: the corrected statement instantiated at the concrete all-404
run. -/
theorem ingest_all404_returns_ok200_empty_skips_witness :
    (demoEnvC1.ingestToken = none ∧ demoEnvC1.stripeDocUrls = some "http://a" ∧
      pyInt "800" = .ok 800 ∧ pyInt "120" = .ok 120 ∧
      parseUrls "http://a" ≠ [] ∧
      (∀ u ∈ parseUrls "http://a", ∃ p, demoWorldC1 u 0 = .resp 404 p)) ∧
    ingestStripeDocs (fun s => s) demoEnvC1 demoWorldC1 [] 0
      = some { status := 200, body := .okBody 0 [], upsertCalls := [[]] } := by
  refine ⟨⟨rfl, rfl, rfl, rfl, by decide, ?_⟩, ?_⟩
  · intro u _
    exact ⟨demoPageC1, rfl⟩
  · exact ingest_all404_returns_ok200_empty_skips (fun s => s) demoWorldC1
      demoEnvC1 [] 0 "http://a" "800" "120" 800 120 rfl rfl rfl rfl
      rfl rfl (by decide) (fun u _ => ⟨demoPageC1, rfl⟩)

/-! ## Claim C2: 404 skip semantics -/

/-- C2 counterexample to the claim as stated: a run over http://a (404) and
http://b (serving one paragraph) produces a response whose skipped list is
empty — no Skip Record {"url": "http://a", "status": "404"} is ever created,
because fetch_url returns None for the 404 and raises nothing the except
clauses could convert. -/
theorem ingest_404_no_skip_record :
    (ingestStripeDocs (fun s => s) demoEnvC2 demoWorldC2 [] 10).map
      IngestResult.body = some (.okBody 1 []) := by
  rfl

/-- C2, corrected, universally.  First half of the claim holds as written:
for every URL whose fetch answers 404, prepare_documents on that URL returns
the empty chunk list and raises no error.  The second half is corrected, also
for every run: the Ingestion Service records NO Skip Record for a 404 URL and
continues — the loop on a 404-heading URL list is exactly the loop on the
remaining URLs with both accumulators unchanged — and more generally every
completed loop ends with exactly the skip list it started with (the handler
starts it empty), because the only exceptions that escape prepare_documents
are tenacity.RetryError values, which neither skip-producing except clause
matches. -/
theorem prepare404_empty_and_no_skip_record :
    (∀ (uuid5 : String → String) (world : World) (chunkSize overlap : Int)
        (fuel : Nat) (url : String) (page : Html),
      world url 0 = .resp 404 page →
      prepareDocuments uuid5 world chunkSize overlap fuel [url] = .ok []) ∧
    (∀ (uuid5 : String → String) (world : World) (chunkSize overlap : Int)
        (fuel : Nat) (url : String) (page : Html) (rest : List String)
        (docs : List Doc) (skips : List SkipRec),
      world url 0 = .resp 404 page →
      ingestLoop uuid5 world chunkSize overlap fuel (url :: rest) docs skips
        = ingestLoop uuid5 world chunkSize overlap fuel rest docs skips) ∧
    (∀ (uuid5 : String → String) (world : World) (chunkSize overlap : Int)
        (fuel : Nat) (urls : List String) (docs : List Doc)
        (skips : List SkipRec) (result : List Doc × List SkipRec),
      ingestLoop uuid5 world chunkSize overlap fuel urls docs skips
        = .ok result →
      result.2 = skips) := by
  refine ⟨?_, ?_, ?_⟩
  · intro uuid5 world cs ov fuel url page h
    exact prepareDocuments_404 uuid5 world cs ov fuel url page h
  · intro uuid5 world cs ov fuel url page rest docs skips h
    rw [ingestLoop, prepareDocuments_404 uuid5 world cs ov fuel url page h]
    show ingestLoop uuid5 world cs ov fuel rest (docs ++ []) skips
      = ingestLoop uuid5 world cs ov fuel rest docs skips
    rw [List.append_nil]
  · intro uuid5 world cs ov fuel urls docs skips result h
    exact ingestLoop_skips_unchanged uuid5 world cs ov fuel urls docs skips
      result h

/-- C2 witness: the three parts instantiated at the concrete two-URL run —
the 404ing URL prepares to nothing, the loop skips straight to http://b with
nothing recorded, and the completed loop's skip list equals the empty list it
started with. -/
theorem prepare404_empty_and_no_skip_record_witness :
    demoWorldC2 "http://a" 0 = .resp 404 demoPageC2 ∧
    prepareDocuments (fun s => s) demoWorldC2 800 120 10 ["http://a"] = .ok [] ∧
    ingestLoop (fun s => s) demoWorldC2 800 120 10 ["http://a", "http://b"] [] []
      = ingestLoop (fun s => s) demoWorldC2 800 120 10 ["http://b"] [] [] ∧
    (([demoDocC2], ([] : List SkipRec)).2 = ([] : List SkipRec)) :=
  ⟨rfl,
   prepare404_empty_and_no_skip_record.1 (fun s => s) demoWorldC2
     800 120 10 "http://a" demoPageC2 rfl,
   prepare404_empty_and_no_skip_record.2.1 (fun s => s) demoWorldC2
     800 120 10 "http://a" demoPageC2 ["http://b"] [] [] rfl,
   prepare404_empty_and_no_skip_record.2.2 (fun s => s) demoWorldC2
     800 120 10 ["http://a", "http://b"] [] [] ([demoDocC2], []) rfl⟩

/-! ## Claim C3: retry exhaustion reporting -/

/-- C3, code_bug.  With one configured URL answering HTTP 500 on all 5 fetch
attempts, the retry policy is exhausted and tenacity.RetryError (wrapping the
HTTPError 500) propagates.  The claim — and the handler's own design — expect
the 500 response {"error": "RetryError", "details": str(exc)}; but main.py's
`except RetryError` catches google.api_core.exceptions.RetryError, a class
tenacity.RetryError does not inherit from (the handler even reads
last_attempt, an attribute only tenacity's class has), so the generic
`except Exception` answers instead with the one-key body {"error": str(exc)}.
This theorem evaluates the run: the body is the errorBody shape, not the
retryErrorBody shape the claim describes. -/
theorem ingest_retry_exhaustion_generic_500 :
    ingestStripeDocs (fun s => s) demoEnvC3 demoWorldC3 [] 0 = some
      ⟨500, .errorBody (exnStr (.tenacityRetryError (.httpError (some 500)))), []⟩ := by
  rfl

/-! ## Claim C5: section labels -/

/-- C5, confirmed.  For a fetched page, every Document Chunk assembled by
prepare_documents carries as its section the heading recorded at its
chunk_index in the extracted sections list when that index exists and the page
title otherwise; and the heading recorded with the i-th extracted paragraph is
exactly the nearest preceding level 1-3 heading at the point that paragraph
appears in the walked scope, with the title as fallback (the spec-side reading
`specNearestPrecedingHeading`). -/
theorem section_label_nearest_heading
    (uuid5 : String → String) (world : World) (url : String)
    (chunkSize overlap : Int) (fuel : Nat) (page : Html) (status : Nat)
    (docs : List Doc)
    (hresp : world url 0 = .resp status page)
    (h404 : status ≠ 404)
    (herr : ¬(400 ≤ status ∧ status < 600))
    (hrun : prepareDocuments uuid5 world chunkSize overlap fuel [url] = .ok docs) :
    (∀ d ∈ docs,
      d.«section» = (match (extractTextFromHtml page url).sections.get? d.chunk_index with
        | some s => s.heading
        | none => (extractTextFromHtml page url).title)) ∧
    (∀ (i : Nat) (s : Section),
      (extractTextFromHtml page url).sections.get? i = some s →
      s.heading = specNearestPrecedingHeading (extractTextFromHtml page url).title
        ((extractScope page).getD []) i) := by
  constructor
  · rcases prepareDocuments_single_inv uuid5 world chunkSize overlap fuel url
        docs hrun with hnil | ⟨page2, chunks, hf, hc, hdocs⟩
    · intro d hd
      rw [hnil] at hd
      simp at hd
    · have hf2 : fetchUrl world url = .ok (some page) :=
        fetchUrl_success world url page status hresp h404 herr
      rw [hf2] at hf
      have hpage : page = page2 :=
        (Option.some.injEq _ _).mp ((Except.ok.injEq _ _).mp hf)
      subst hpage
      intro d hd
      rw [hdocs] at hd
      exact buildDocs_mem_section uuid5 url _ chunks 0 d hd
  · intro i s hs
    cases hscope : extractScope page with
    | none =>
      simp only [extractTextFromHtml, hscope] at hs
      simp at hs
    | some elems =>
      simp only [extractTextFromHtml, hscope] at hs ⊢
      obtain ⟨j, hj, hh⟩ := extractWalk_heading_spec elems _ i s hs
      simp only [Option.getD]
      unfold specNearestPrecedingHeading
      rw [hj]
      exact hh

/-- C5 witness: the section-label statement instantiated at a concrete page
with a title heading, a sub-heading, and two paragraphs (its single chunk is
labelled with the heading stored for paragraph 0, the title "Top"). -/
theorem section_label_nearest_heading_witness :
    (demoWorldC5 "u" 0 = .resp 200 demoPageC5 ∧ (200 : Nat) ≠ 404 ∧
      ¬(400 ≤ 200 ∧ 200 < 600) ∧
      prepareDocuments (fun s => s) demoWorldC5 800 120 10 ["u"] = .ok demoDocsC5) ∧
    ((∀ d ∈ demoDocsC5,
      d.«section» = (match (extractTextFromHtml demoPageC5 "u").sections.get? d.chunk_index with
        | some s => s.heading
        | none => (extractTextFromHtml demoPageC5 "u").title)) ∧
    (∀ (i : Nat) (s : Section),
      (extractTextFromHtml demoPageC5 "u").sections.get? i = some s →
      s.heading = specNearestPrecedingHeading (extractTextFromHtml demoPageC5 "u").title
        ((extractScope demoPageC5).getD []) i)) := by
  refine ⟨⟨rfl, by decide, by decide, rfl⟩, ?_⟩
  exact section_label_nearest_heading (fun s => s) demoWorldC5 "u" 800 120 10
    demoPageC5 200 demoDocsC5 rfl (by decide) (by decide) rfl

/-! ## Claim C7: deterministic identifiers -/

/-- C7, confirmed.  Document preparation is a pure function, so two runs over
the same fetched content are identical; and the identifier of the chunk at
position i is exactly uuid5 of the seed "<url>-<i>-<first 100 characters of
the chunk text>" (uuid5 standing for Python's name-based
uuid.uuid5(NAMESPACE_URL, seed), a pure function of the seed), with
chunk_index equal to the position. -/
theorem deterministic_identifiers
    (uuid5 : String → String) (world : World) (url : String)
    (chunkSize overlap : Int) (fuel : Nat) (docs : List Doc)
    (hrun : prepareDocuments uuid5 world chunkSize overlap fuel [url] = .ok docs) :
    prepareDocuments uuid5 world chunkSize overlap fuel [url]
      = prepareDocuments uuid5 world chunkSize overlap fuel [url] ∧
    (∀ (i : Nat) (d : Doc), docs.get? i = some d →
      d.id = uuid5 (url ++ "-" ++ toString i ++ "-" ++ pyTake d.content 100) ∧
      d.chunk_index = i) := by
  refine ⟨rfl, ?_⟩
  rcases prepareDocuments_single_inv uuid5 world chunkSize overlap fuel url
      docs hrun with hnil | ⟨page, chunks, hf, hc, hdocs⟩
  · intro i d hd
    rw [hnil] at hd
    simp at hd
  · intro i d hd
    rw [hdocs] at hd
    obtain ⟨hid, hidx⟩ := buildDocs_get? uuid5 url _ chunks 0 i d hd
    rw [Nat.zero_add] at hid hidx
    exact ⟨hid, hidx⟩

/-- C7 witness: the identifier statement instantiated at a concrete
one-paragraph page, with the identity function standing in for uuid5. -/
theorem deterministic_identifiers_witness :
    prepareDocuments (fun s => s) demoWorldC7 800 120 10 ["u"] = .ok demoDocsC7 ∧
    (prepareDocuments (fun s => s) demoWorldC7 800 120 10 ["u"]
      = prepareDocuments (fun s => s) demoWorldC7 800 120 10 ["u"] ∧
    (∀ (i : Nat) (d : Doc), demoDocsC7.get? i = some d →
      d.id = (fun s => s) ("u" ++ "-" ++ toString i ++ "-" ++ pyTake d.content 100) ∧
      d.chunk_index = i)) :=
  ⟨rfl, deterministic_identifiers (fun s => s) demoWorldC7 "u" 800 120 10
    demoDocsC7 rfl⟩

/-! ## Claim C8: embedding proxy validation -/

/-- C8 counterexample to the claim as stated: an authorized request whose body
is the parseable JSON array [1] gets neither a 400 response nor a 200
response — payload.get("texts") raises AttributeError on the list and the
handler has no catch for it, so the request fails unhandled. -/
theorem embed_nonobject_json_unhandled :
    (embed demoGetEmb demoEmbEnvC8 demoEmbSt [] (some (.arr [.num 1]))).1
      = .unhandled .attributeError := by
  rfl

/-- C8, corrected.  For an authorized request with a working initialisation:
an unparseable body gets 400 {"error": "Invalid JSON payload"}; a parseable
non-object body raises an unhandled AttributeError instead of any HTTP
response (the correction — the claim promised a response for every authorized
request); an object body whose texts field is absent, not a list, or the empty
list gets 400 {"error": "Missing \x27texts\x27 array"}; an object body with a
non-empty texts list gets 200 with the model's vectors in input order, one per
text by the embedding model's contract. -/
theorem embed_validation_cases {V : Type}
    (getEmbeddings : List Json → List V)
    (hlen : ∀ xs, (getEmbeddings xs).length = xs.length)
    (env : EmbedEnv) (st : EmbedState) (headers : List (String × String))
    (hinit : st.initialized = true ∨ (env.projectId ≠ none ∧ env.location ≠ none))
    (hauth : pyTruthyOptStr env.embedToken = false ∨
      headerGet headers "X-Internal-Token" = env.embedToken) :
    ((embed getEmbeddings env st headers none).1
        = .resp 400 (.errorMsg "Invalid JSON payload")) ∧
    (∀ payload : Json, payload.isObj = false →
      (embed getEmbeddings env st headers (some payload)).1
        = .unhandled .attributeError) ∧
    (∀ fields : List (String × Json),
      (match lookupField fields "texts" with
        | none => True
        | some v => v.isList = false ∨ v = Json.arr []) →
      (embed getEmbeddings env st headers (some (.obj fields))).1
        = .resp 400 (.errorMsg "Missing \x27texts\x27 array")) ∧
    (∀ (fields : List (String × Json)) (x : Json) (xs : List Json),
      lookupField fields "texts" = some (.arr (x :: xs)) →
      (embed getEmbeddings env st headers (some (.obj fields))).1
        = .resp 200 (.embeddings (getEmbeddings (x :: xs))) ∧
      (getEmbeddings (x :: xs)).length = xs.length + 1) := by
  obtain ⟨st1, h1⟩ : ∃ st1, initVertexClient env st = .ok st1 := by
    rcases hinit with h | ⟨hp, hl⟩
    · refine ⟨st, ?_⟩
      unfold initVertexClient
      rw [h]
      rfl
    · cases hp' : env.projectId with
      | none => exact absurd hp' hp
      | some p =>
        cases hl' : env.location with
        | none => exact absurd hl' hl
        | some l =>
          cases hst : st.initialized with
          | true =>
            refine ⟨st, ?_⟩
            unfold initVertexClient
            rw [hst]
            rfl
          | false =>
            refine ⟨{ initialized := true }, ?_⟩
            unfold initVertexClient
            rw [hst, hp', hl']
            rfl
  have hAuthFalse : ¬(pyTruthyOptStr env.embedToken = true ∧
      headerGet headers "X-Internal-Token" ≠ env.embedToken) := by
    rcases hauth with h | h
    · intro hcon
      rw [h] at hcon
      exact Bool.false_ne_true hcon.1
    · intro hcon
      exact hcon.2 h
  refine ⟨?_, ?_, ?_, ?_⟩
  · unfold embed
    simp only [h1]
    rw [if_neg hAuthFalse]
  · intro payload hobj
    unfold embed
    simp only [h1]
    rw [if_neg hAuthFalse]
    cases payload with
    | obj fields => simp [Json.isObj] at hobj
    | null => rfl
    | bool b => rfl
    | num n => rfl
    | str s => rfl
    | arr xs => rfl
  · intro fields hcond
    unfold embed
    simp only [h1]
    rw [if_neg hAuthFalse]
    simp only [pyGet]
    cases hlk : lookupField fields "texts" with
    | none => rfl
    | some v =>
      rw [hlk] at hcond
      cases v with
      | null => rfl
      | bool b => rfl
      | num n => rfl
      | str s => rfl
      | obj fs => rfl
      | arr xs =>
        cases xs with
        | nil => rfl
        | cons x xs' =>
          rcases hcond with h | h
          · simp [Json.isList] at h
          · simp at h
  · intro fields x xs hlk
    constructor
    · unfold embed
      simp only [h1]
      rw [if_neg hAuthFalse]
      simp only [pyGet]
      rw [hlk]
    · rw [hlen]
      rfl

/-- C8 witness: the corrected statement instantiated at a configured
environment with no token: the unparseable body answers 400 Invalid JSON, and
a two-text object body answers 200 with the model output for those two texts. -/
theorem embed_validation_cases_witness :
    (embed demoGetEmb demoEmbEnvC8 demoEmbSt [] none).1
        = .resp 400 (.errorMsg "Invalid JSON payload") ∧
    (embed demoGetEmb demoEmbEnvC8 demoEmbSt []
        (some (.obj [("texts", Json.arr [Json.str "a", Json.str "b"])]))).1
      = .resp 200 (.embeddings (demoGetEmb [Json.str "a", Json.str "b"])) := by
  have h := embed_validation_cases demoGetEmb
    (fun xs => by simp [demoGetEmb]) demoEmbEnvC8 demoEmbSt []
    (Or.inr ⟨by simp [demoEmbEnvC8], by simp [demoEmbEnvC8]⟩) (Or.inl rfl)
  exact ⟨h.1, (h.2.2.2 [("texts", Json.arr [Json.str "a", Json.str "b"])]
    (Json.str "a") [Json.str "b"] rfl).1⟩

/-! ## Claim C9: header redaction -/

/-- C9, confirmed.  Position by position, the redacted header list keeps every
name, replaces the value with ***REDACTED*** exactly when the lowercased name
is authorization or x-ingest-token, and keeps every other value unchanged. -/
theorem redact_headers_pointwise (headers : List (String × String)) (i : Nat) :
    (redactHeaders headers).get? i = (headers.get? i).map (fun kv =>
      if pyLower kv.1 = "authorization" ∨ pyLower kv.1 = "x-ingest-token"
      then (kv.1, "***REDACTED***") else kv) := by
  induction headers generalizing i with
  | nil => rfl
  | cons kv rest ih =>
    cases i with
    | zero => rfl
    | succ i =>
      rw [redactHeaders]
      simp only [List.get?]
      exact ih i

/-! ## Claim C10: initialisation precedes authorization in the proxy -/

/-- C10, confirmed.  The embed handler runs init_vertex_client before its
token check and body validation; with the process not yet initialised and
VERTEX_PROJECT_ID or VERTEX_LOCATION missing, every request — whatever its
headers and body, including unauthorized ones — ends in an unhandled KeyError,
the initialised flag stays false (so the same holds for every later request of
the process), and no HTTP response (in particular no 401 and no 400) is ever
produced. -/
theorem embed_init_before_auth_missing_config {V : Type}
    (getEmbeddings : List Json → List V) (env : EmbedEnv) (st : EmbedState)
    (headers : List (String × String)) (parsedBody : Option Json)
    (hst : st.initialized = false)
    (hmiss : env.projectId = none ∨ env.location = none) :
    (∃ name, (embed getEmbeddings env st headers parsedBody).1
        = .unhandled (.keyError name)) ∧
    (embed getEmbeddings env st headers parsedBody).2 = st ∧
    (∀ (s : Nat) (b : EmbedBody V),
      (embed getEmbeddings env st headers parsedBody).1 ≠ .resp s b) := by
  obtain ⟨name, hn⟩ : ∃ name, initVertexClient env st = .error (.keyError name) := by
    unfold initVertexClient
    rw [hst]
    rw [if_neg Bool.false_ne_true]
    rcases hmiss with h | h
    · rw [h]
      exact ⟨"VERTEX_PROJECT_ID", rfl⟩
    · cases hp : env.projectId with
      | none => exact ⟨"VERTEX_PROJECT_ID", rfl⟩
      | some p =>
        rw [h]
        exact ⟨"VERTEX_LOCATION", rfl⟩
  unfold embed
  rw [hn]
  exact ⟨⟨name, rfl⟩, rfl, fun s b h => EmbedOutcome.noConfusion h⟩

/-- C10 witness: an unauthorized request (wrong token) against a cold process
missing VERTEX_PROJECT_ID fails with the KeyError, leaves the flag down, and
yields no HTTP response. -/
theorem embed_init_before_auth_missing_config_witness :
    demoEmbSt.initialized = false ∧
    (demoEmbEnvC10.projectId = none ∨ demoEmbEnvC10.location = none) ∧
    ((∃ name, (embed demoGetEmb demoEmbEnvC10 demoEmbSt
        [("X-Internal-Token", "bad")] none).1 = .unhandled (.keyError name)) ∧
      (embed demoGetEmb demoEmbEnvC10 demoEmbSt
        [("X-Internal-Token", "bad")] none).2 = demoEmbSt ∧
      (∀ (s : Nat) (b : EmbedBody (List Int)),
        (embed demoGetEmb demoEmbEnvC10 demoEmbSt
          [("X-Internal-Token", "bad")] none).1 ≠ .resp s b)) :=
  ⟨rfl, Or.inl rfl, embed_init_before_auth_missing_config demoGetEmb
    demoEmbEnvC10 demoEmbSt [("X-Internal-Token", "bad")] none rfl (Or.inl rfl)⟩

end StripeRag
